import Mathlib

/-!
Verification development for the MixerGL interactive 3D scene editor
(`src/App/Source/App.cpp`).

The editor core is embedded shallowly over exact rational arithmetic:
`glm::vec3` becomes a record of three rationals, the global mutable
editor state becomes an explicit `EditorState` record, and the mouse
callbacks and the per-frame drag block of `main` become pure state
transformers.  Square roots produced by `glm::length` never need to be
computed: every comparison the source makes against such a length is
embedded in its exact squared form (documented at each definition).
Rendering, logging and OpenGL calls have no effect on the editor state
and are omitted.
-/

/-- Exact embedding of `glm::vec3`: three rational components. -/
structure V3 where
  x : ℚ
  y : ℚ
  z : ℚ
deriving DecidableEq

/-- Exact embedding of `glm::vec4` (used for object colors). -/
structure V4 where
  r : ℚ
  g : ℚ
  b : ℚ
  a : ℚ
deriving DecidableEq

instance : Add V3 := ⟨fun u v => ⟨u.x + v.x, u.y + v.y, u.z + v.z⟩⟩
instance : Sub V3 := ⟨fun u v => ⟨u.x - v.x, u.y - v.y, u.z - v.z⟩⟩
instance : Neg V3 := ⟨fun u => ⟨-u.x, -u.y, -u.z⟩⟩
instance : SMul ℚ V3 := ⟨fun t v => ⟨t * v.x, t * v.y, t * v.z⟩⟩
instance : Zero V3 := ⟨⟨0, 0, 0⟩⟩

/-- Embedding of `glm::dot` on `vec3`. -/
def V3.dot (u v : V3) : ℚ :=
  u.x * v.x + u.y * v.y + u.z * v.z

/-- Embedding of `glm::cross`. -/
def V3.cross (u v : V3) : V3 :=
  ⟨u.y * v.z - u.z * v.y, u.z * v.x - u.x * v.z, u.x * v.y - u.y * v.x⟩

/-- Embedding of componentwise `glm::max` on `vec3`. -/
def V3.maxV (u v : V3) : V3 :=
  ⟨max u.x v.x, max u.y v.y, max u.z v.z⟩

/-- Embedding of `glm::clamp` on scalars: `min (max x lo) hi`. -/
def clampQ (x lo hi : ℚ) : ℚ :=
  min (max x lo) hi

/-- Embedding of the `Object` struct (App.cpp lines 23-29). -/
structure Object where
  position : V3
  scale : V3
  color : V4
  isCube : Bool
  textureID : Nat
deriving DecidableEq

instance : Inhabited Object :=
  ⟨{ position := 0, scale := 0, color := ⟨0, 0, 0, 0⟩, isCube := true, textureID := 0 }⟩

/-- Discriminant of the ray/sphere quadratic exactly as `RayIntersectsObject`
(App.cpp lines 550-563) computes it.  The source computes
`radius = 0.5f * glm::length(object.scale)` and then uses only
`radius * radius`, which in exact arithmetic equals
`(1/4) * dot(scale, scale)`; the embedding computes that square directly,
so no square root is needed. -/
def raySphereDiscriminant (ray_origin ray_direction : V3) (object : Object) : ℚ :=
  let radiusSq : ℚ := (1/4) * V3.dot object.scale object.scale
  let oc := ray_origin - object.position
  let a := V3.dot ray_direction ray_direction
  let b := 2 * V3.dot oc ray_direction
  let c := V3.dot oc oc - radiusSq
  b * b - 4 * a * c

/-- Embedding of `RayIntersectsObject` (App.cpp lines 550-563): the bounding
sphere test returns true exactly when the discriminant is strictly positive
(`if (discriminant > 0.0f)`). -/
def rayIntersectsObject (ray_origin ray_direction : V3) (object : Object) : Bool :=
  decide (0 < raySphereDiscriminant ray_origin ray_direction object)

/-- Closest point on the segment `[line_start, line_end]` chosen by
`DistanceFromRayToLineSegment` (App.cpp lines 869-890).  The source
normalizes `line_dir`, projects `ray_origin - line_start` onto it and divides
the projection parameter by `line_length`; in exact arithmetic the clamped
parameter is `dot(origin - start, w) / dot(w, w)` with `w = end - start`,
and the closest point is `start + t * w`, which avoids the square root.
(When `w = 0` the source's `normalize` would produce NaN; the claims only
use segments with a unit axis direction.) -/
def segClosestPoint (ray_origin line_start line_end : V3) : V3 :=
  let w := line_end - line_start
  let t := clampQ (V3.dot (ray_origin - line_start) w / V3.dot w w) 0 1
  line_start + t • w

/-- Embedding of the comparison `DistanceFromRayToLineSegment(...) < tol`
made by `mouse_button_callback` (App.cpp lines 467-479).  The source's
distance is `length(cross(dir, closest - origin)) / length(dir)`; for
`tol > 0` the comparison `distance < tol` is equivalent to the exact squared
comparison used here, and for a zero ray direction the source's `0/0` (NaN)
comparison is false, matching `0 < tol^2 * 0 = 0` being false here. -/
def rayHitsSegment (ray_origin ray_direction line_start line_end : V3) (tol : ℚ) : Bool :=
  let closest := segClosestPoint ray_origin line_start line_end
  let perp := V3.cross ray_direction (closest - ray_origin)
  decide (V3.dot perp perp < tol ^ 2 * V3.dot ray_direction ray_direction)

/-- Squared value returned by `DistanceFromRayToLineSegment` (App.cpp lines
869-890), with `none` marking the inputs on which the source divides by
zero and produces NaN: a degenerate segment (`normalize` of the zero
vector) or a zero-length ray direction (`length(perp) / length(dir)`
becomes `0/0`). -/
def distanceSqFromRayToLineSegment (ray_origin ray_direction line_start line_end : V3) :
    Option ℚ :=
  let w := line_end - line_start
  if V3.dot w w = 0 then none
  else if V3.dot ray_direction ray_direction = 0 then none
  else
    let closest := segClosestPoint ray_origin line_start line_end
    let perp := V3.cross ray_direction (closest - ray_origin)
    some (V3.dot perp perp / V3.dot ray_direction ray_direction)

/-- Plane-intersection parameter `t` computed by `IsRayNearCircle`
(App.cpp line 1043), with `none` marking the inputs on which the source
divides by zero (`dot(ray_direction, normal) = 0`). -/
def isRayNearCircleT (ray_origin ray_direction center normal : V3) : Option ℚ :=
  if V3.dot ray_direction normal = 0 then none
  else some (V3.dot (center - ray_origin) normal / V3.dot ray_direction normal)

/-- Embedding of `IsRayNearCircle` (App.cpp lines 1041-1052).  When
`dot(ray_direction, normal) = 0` the source's division yields an infinite or
NaN `t` for which every subsequent IEEE comparison fails, so the function
returns false; the embedding makes that case explicit.  The final test
`abs(length(intersection - center) - radius) < 0.1` is embedded in its exact
squared form: with `D` the squared distance to the center it is equivalent to
`(radius - 1/10) * abs(radius - 1/10) < D` and `D < (radius + 1/10)^2`. -/
def isRayNearCircle (ray_origin ray_direction center normal : V3) (radius : ℚ) : Bool :=
  if V3.dot ray_direction normal = 0 then false
  else
    let t := V3.dot (center - ray_origin) normal / V3.dot ray_direction normal
    if t < 0 then false
    else
      let intersection := ray_origin + t • ray_direction
      let dSq := V3.dot (intersection - center) (intersection - center)
      decide ((radius - 1/10) * |radius - 1/10| < dSq ∧ dSq < (radius + 1/10) ^ 2)

/-- Embedding of the transformation-mode enum (App.cpp lines 89-93). -/
inductive TransformationMode where
  | TRANSLATE
  | ROTATE
  | SCALE
deriving DecidableEq

/-- Embedding of the mutable globals that make up the editor state
(App.cpp lines 80-99): the object list, the selection, the gizmo drag
state, the current transformation mode and the movement sensitivity. -/
structure EditorState where
  objects : List Object
  selectedObject : Int
  selectedAxis : Int
  isDragging : Bool
  initialClickPosition : V3
  currentMode : TransformationMode
  movementSensitivity : ℚ
deriving DecidableEq

/-- Total lookup standing in for `objects[selectedObject]`.  The source
indexes the vector unchecked (undefined behavior when out of range); the
drag-state invariant proved below shows the out-of-range default is never
consulted on reachable states. -/
def getObjD (objs : List Object) (i : Int) : Object :=
  objs.getD i.toNat default

/-- Hit tolerance `gizmoClickRadius = 0.2f` (App.cpp line 463). -/
def gizmoClickRadius : ℚ := 1/5

/-- First index in the object list hit by the ray, if any: the loop of
`mouse_button_callback` (App.cpp lines 498-504) with its `break` on the
first match. -/
def findHit (ray_origin ray_direction : V3) : List Object → Option Nat
  | [] => none
  | obj :: rest =>
    if rayIntersectsObject ray_origin ray_direction obj then some 0
    else (findHit ray_origin ray_direction rest).map (· + 1)

/-- Result of the object-picking loop (App.cpp lines 496-508): the first
matching index, or `-1` when nothing (or an empty list) matches. -/
def pickObject (ray_origin ray_direction : V3) (objs : List Object) : Int :=
  match findHit ray_origin ray_direction objs with
  | some i => Int.ofNat i
  | none => -1

/-- Embedding of the `GLFW_PRESS` branch of `mouse_button_callback`
(App.cpp lines 444-509) as a state transformer.  `uiWants` is the
`ImGui::GetIO().WantCaptureMouse` flag; `ray_origin`/`ray_direction` are the
click ray that the source computes from the cursor position and camera.
The three arrow tests run in the order X, Y, Z whenever an object is
selected, in every transformation mode; on a match the anchor
`initialClickPosition` is seeded with `ray_origin + ray_direction`;
otherwise (or with no selection) the picking loop runs. -/
def mousePressBody (uiWants : Bool) (ray_origin ray_direction : V3)
    (s : EditorState) : EditorState :=
  if uiWants then s
  else
    let s1 : EditorState := { s with selectedAxis := -1 }
    let s2 : EditorState :=
      if 0 ≤ s1.selectedObject then
        let obj := getObjD s1.objects s1.selectedObject
        let s' : EditorState :=
          if rayHitsSegment ray_origin ray_direction obj.position
              (obj.position + ⟨1, 0, 0⟩) gizmoClickRadius then
            { s1 with selectedAxis := 0, isDragging := true }
          else if rayHitsSegment ray_origin ray_direction obj.position
              (obj.position + ⟨0, 1, 0⟩) gizmoClickRadius then
            { s1 with selectedAxis := 1, isDragging := true }
          else if rayHitsSegment ray_origin ray_direction obj.position
              (obj.position + ⟨0, 0, 1⟩) gizmoClickRadius then
            { s1 with selectedAxis := 2, isDragging := true }
          else s1
        if s'.isDragging then { s' with initialClickPosition := ray_origin + ray_direction }
        else s'
      else s1
    if s2.selectedObject = -1 ∨ s2.isDragging = false then
      { s2 with selectedObject := pickObject ray_origin ray_direction s2.objects }
    else s2

/-- Embedding of the `GLFW_RELEASE` branch of `mouse_button_callback`
(App.cpp lines 510-514): always clears the drag flag and the axis. -/
def mouseRelease (s : EditorState) : EditorState :=
  { s with isDragging := false, selectedAxis := -1 }

/-- Embedding of a click on an entry of the Object List window
(`RenderImGui`, App.cpp lines 713-719): selects index `i`, which the UI
only offers for existing objects. -/
def uiSelectObject (i : Nat) (s : EditorState) : EditorState :=
  if i < s.objects.length then { s with selectedObject := Int.ofNat i } else s

/-- Unit direction of a gizmo axis (App.cpp lines 323-332).  Any value other
than 0, 1, 2 leaves `axisDirection` uninitialized in the source; the model
returns the zero vector there, and the drag-state invariant shows the case
is unreachable. -/
def axisDirection : Int → V3
  | 0 => ⟨1, 0, 0⟩
  | 1 => ⟨0, 1, 0⟩
  | 2 => ⟨0, 0, 1⟩
  | _ => 0

/-- Embedding of `glm::quat` by its four components.  The quaternion built
by the rotate branch (`glm::angleAxis`, App.cpp line 349) has sine/cosine
components that are irrational in general, so drag steps take the
quaternion as a parameter; the rotation theorems hold for every value. -/
structure Quat where
  w : ℚ
  x : ℚ
  y : ℚ
  z : ℚ
deriving DecidableEq

/-- Rotation of a vector by a quaternion, following glm's
`operator*(quat, vec3)`: `v + 2 * cross(q.xyz, cross(q.xyz, v) + q.w * v)`. -/
def quatRotate (q : Quat) (v : V3) : V3 :=
  let u : V3 := ⟨q.x, q.y, q.z⟩
  v + (2 : ℚ) • V3.cross u (V3.cross u v + q.w • v)

/-- Embedding of the per-frame drag block of `main` (App.cpp lines 312-370).
If the guard `isDragging && selectedObject >= 0 && selectedAxis >= 0` holds,
the movement vector `dot(currentRayPosition - initialClickPosition, axis) *
axis * movementSensitivity` is applied to the selected object according to
the current mode, and the anchor is re-seeded to
`currentRayPosition = ray_origin + ray_direction`. -/
def dragFrameBody (ray_origin ray_direction : V3) (q : Quat) (s : EditorState) : EditorState :=
  if s.isDragging = true ∧ 0 ≤ s.selectedObject ∧ 0 ≤ s.selectedAxis then
    let currentRayPosition := ray_origin + ray_direction
    let axisDir := axisDirection s.selectedAxis
    let movement :=
      (V3.dot (currentRayPosition - s.initialClickPosition) axisDir * s.movementSensitivity) •
        axisDir
    let obj := getObjD s.objects s.selectedObject
    let obj' : Object :=
      match s.currentMode with
      | TransformationMode.TRANSLATE => { obj with position := obj.position + movement }
      | TransformationMode.ROTATE =>
        let objectCenter := obj.position
        { obj with position := quatRotate q (obj.position - objectCenter) + objectCenter }
      | TransformationMode.SCALE =>
        { obj with scale := V3.maxV (obj.scale + movement) ⟨1/10, 1/10, 1/10⟩ }
    { s with objects := s.objects.set s.selectedObject.toNat obj',
             initialClickPosition := currentRayPosition }
  else s

/-- Scale-gizmo handle marker positions generated by `RenderScalingGizmo`
(App.cpp lines 974-976): one small cube per axis at
`position + scale_component * axis_unit`. -/
def scaleHandlePositions (obj : Object) : V3 × V3 × V3 :=
  (obj.position + ⟨1 * obj.scale.x, 0, 0⟩,
   obj.position + ⟨0, 1 * obj.scale.y, 0⟩,
   obj.position + ⟨0, 0, 1 * obj.scale.z⟩)

/-- Default cube created at startup (App.cpp lines 268-269): position
`camera.Position + (0, 0.5, -3) = (0, 0.5, 0)`, unit scale, white color,
no texture. -/
def initialObject : Object :=
  { position := ⟨0, 1/2, 0⟩, scale := ⟨1, 1, 1⟩, color := ⟨1, 1, 1, 1⟩,
    isCube := true, textureID := 0 }

/-- The editor state together with the physical state of the primary mouse
button.  The button flag is environment state (GLFW only delivers a press
after a release and vice versa); it is not a variable of the source. -/
structure SysState where
  editor : EditorState
  buttonDown : Bool
deriving DecidableEq

/-- Input operations driving the editor: primary-button press (with the
`WantCaptureMouse` flag and the click ray), primary-button release, a click
in the Object List window, one frame of the drag block of `main`, the Add
Cube / Add Sphere buttons (append, App.cpp lines 700-710), and the
transformation-mode buttons (App.cpp lines 682-692). -/
inductive Event where
  | press (uiWants : Bool) (ray_origin ray_direction : V3)
  | release
  | uiSelect (i : Nat)
  | frame (ray_origin ray_direction : V3) (q : Quat)
  | addObject (obj : Object)
  | setMode (m : TransformationMode)

/-- One step of the input system.  A press that arrives while the button is
already down cannot occur (GLFW alternates press and release), so it is a
no-op; a press always lowers into `mousePressBody`, which itself handles
the `WantCaptureMouse` early return. -/
def stepEvent (st : SysState) : Event → SysState
  | Event.press ui o d =>
    if st.buttonDown then st else ⟨mousePressBody ui o d st.editor, true⟩
  | Event.release => ⟨mouseRelease st.editor, false⟩
  | Event.uiSelect i => ⟨uiSelectObject i st.editor, st.buttonDown⟩
  | Event.frame o d q => ⟨dragFrameBody o d q st.editor, st.buttonDown⟩
  | Event.addObject obj => ⟨{ st.editor with objects := st.editor.objects ++ [obj] }, st.buttonDown⟩
  | Event.setMode m => ⟨{ st.editor with currentMode := m }, st.buttonDown⟩

/-- Initial state of the program (App.cpp lines 80-99 and 268-269): one
default cube, nothing selected, no axis, not dragging, zero-initialized
anchor, translate mode, sensitivity 4. -/
def initState : SysState :=
  ⟨{ objects := [initialObject], selectedObject := -1, selectedAxis := -1,
     isDragging := false, initialClickPosition := 0,
     currentMode := TransformationMode.TRANSLATE, movementSensitivity := 4 }, false⟩

/-- Run a sequence of input operations from the initial state. -/
def runEvents (es : List Event) : SysState :=
  es.foldl stepEvent initState

/-- The drag-state invariant together with the auxiliary facts needed to
propagate it: whenever a drag is active the axis is X, Y or Z and an object
is selected; a non-negative selection is in range; and the drag flag can
only be set while the button is physically down. -/
def DragInv (st : SysState) : Prop :=
  (st.editor.isDragging = true →
    (st.editor.selectedAxis = 0 ∨ st.editor.selectedAxis = 1 ∨ st.editor.selectedAxis = 2)
    ∧ 0 ≤ st.editor.selectedObject)
  ∧ (0 ≤ st.editor.selectedObject →
      st.editor.selectedObject.toNat < st.editor.objects.length)
  ∧ (st.buttonDown = false → st.editor.isDragging = false)

/-- Object used by the tangent-ray counterexample: a unit cube at the origin
with scale `(1, 2, 2)`, whose bounding-sphere radius squared is `9/4`. -/
def objTangent : Object :=
  { position := 0, scale := ⟨1, 2, 2⟩, color := ⟨1, 1, 1, 1⟩, isCube := true, textureID := 0 }

/-- Object at the origin with unit scale, used by several concrete
instances below. -/
def objOrigin : Object :=
  { position := 0, scale := ⟨1, 1, 1⟩, color := ⟨1, 1, 1, 1⟩, isCube := true, textureID := 0 }

/-- State used by the rotate-mode dispatch counterexample: one object at
the origin, selected, rotate mode active, not dragging. -/
def stC2 : EditorState :=
  { objects := [objOrigin], selectedObject := 0, selectedAxis := -1, isDragging := false,
    initialClickPosition := 0, currentMode := TransformationMode.ROTATE,
    movementSensitivity := 4 }

/-- State used by the translate-drag witness: the default cube selected,
X axis active, drag in progress, anchor at the origin. -/
def sW3 : EditorState :=
  { objects := [initialObject], selectedObject := 0, selectedAxis := 0, isDragging := true,
    initialClickPosition := 0, currentMode := TransformationMode.TRANSLATE,
    movementSensitivity := 4 }

/-- State used by the scale-drag witness: the default cube selected, X axis
active, drag in progress, anchor at `(5/4, 0, 0)` so that the frame's
movement vector is `(-5, 0, 0)`. -/
def sW4 : EditorState :=
  { objects := [initialObject], selectedObject := 0, selectedAxis := 0, isDragging := true,
    initialClickPosition := ⟨5/4, 0, 0⟩, currentMode := TransformationMode.SCALE,
    movementSensitivity := 4 }

/-- State used by the rotate-drag witness: the default cube selected, Y axis
active, drag in progress. -/
def sW5 : EditorState :=
  { objects := [initialObject], selectedObject := 0, selectedAxis := 1, isDragging := true,
    initialClickPosition := ⟨1, 2, 3⟩, currentMode := TransformationMode.ROTATE,
    movementSensitivity := 4 }

/-- Event trace used by the drag-invariant witness: select the default cube
from the Object List, then press with a ray that hits its X arrow. -/
def trC9 : List Event :=
  [Event.uiSelect 0, Event.press false ⟨1/4, 1/2, 5⟩ ⟨0, 0, -1⟩]

@[simp] theorem V3.add_x (u v : V3) : (u + v).x = u.x + v.x := rfl
@[simp] theorem V3.add_y (u v : V3) : (u + v).y = u.y + v.y := rfl
@[simp] theorem V3.add_z (u v : V3) : (u + v).z = u.z + v.z := rfl
@[simp] theorem V3.sub_x (u v : V3) : (u - v).x = u.x - v.x := rfl
@[simp] theorem V3.sub_y (u v : V3) : (u - v).y = u.y - v.y := rfl
@[simp] theorem V3.sub_z (u v : V3) : (u - v).z = u.z - v.z := rfl
@[simp] theorem V3.smul_x (t : ℚ) (v : V3) : (t • v).x = t * v.x := rfl
@[simp] theorem V3.smul_y (t : ℚ) (v : V3) : (t • v).y = t * v.y := rfl
@[simp] theorem V3.smul_z (t : ℚ) (v : V3) : (t • v).z = t * v.z := rfl
@[simp] theorem V3.zero_x : (0 : V3).x = 0 := rfl
@[simp] theorem V3.zero_y : (0 : V3).y = 0 := rfl
@[simp] theorem V3.zero_z : (0 : V3).z = 0 := rfl

/-- Componentwise extensionality for `V3`. -/
theorem V3.ext_iff_xyz (u v : V3) : u = v ↔ u.x = v.x ∧ u.y = v.y ∧ u.z = v.z := by
  constructor
  · rintro rfl; exact ⟨rfl, rfl, rfl⟩
  · rintro ⟨hx, hy, hz⟩; cases u; cases v; simp_all

/-- Subtracting a vector from itself gives the zero vector. -/
theorem V3.sub_self_eq_zero (v : V3) : v - v = 0 := by
  rw [V3.ext_iff_xyz]; norm_num

/-- The zero vector is a left unit for vector addition. -/
theorem V3.zero_add_eq (v : V3) : (0 : V3) + v = v := by
  rw [V3.ext_iff_xyz]; norm_num

/-- Quaternion rotation fixes the zero vector, whatever the quaternion. -/
theorem quatRotate_zero (q : Quat) : quatRotate q 0 = 0 := by
  rw [V3.ext_iff_xyz]
  simp [quatRotate, V3.cross]

/-- `Int.toNat` undoes `Int.ofNat`. -/
@[simp] theorem toNat_ofNat_self (n : Nat) : (Int.ofNat n).toNat = n := rfl

/-- `Int.ofNat` agrees with the numeral coercion. -/
theorem ofNat_eq_cast_self (n : Nat) : Int.ofNat n = (n : Int) := rfl

/-- `Int.ofNat` values are non-negative. -/
theorem ofNat_nonneg_self (n : Nat) : (0 : Int) ≤ Int.ofNat n := Int.le.intro_sub n rfl

/-- Writing back the element already stored at a valid index leaves a list
unchanged. -/
theorem list_set_getD_self {α : Type} (l : List α) (i : Nat) (d₀ : α)
    (h : i < l.length) : l.set i (l.getD i d₀) = l := by
  induction l generalizing i with
  | nil => simp at h
  | cons a rest ih =>
    cases i with
    | zero => simp
    | succ i' => simpa [List.getD] using ih i' (by simpa using h)

/-- `findHit` returns `none` exactly when no object in the list is hit. -/
theorem findHit_none_iff (o d : V3) (objs : List Object) :
    findHit o d objs = none ↔ ∀ obj ∈ objs, rayIntersectsObject o d obj = false := by
  induction objs with
  | nil => simp [findHit]
  | cons a rest ih =>
    by_cases h : rayIntersectsObject o d a
    · simp [findHit, h]
    · simp [findHit, h, ih]

/-- A successful `findHit` returns the first matching index: it is in range,
it is a hit, and every earlier index is a miss. -/
theorem findHit_some_spec (o d : V3) (objs : List Object) (i : Nat)
    (h : findHit o d objs = some i) :
    i < objs.length ∧ rayIntersectsObject o d (objs.getD i default) = true
      ∧ ∀ j, j < i → rayIntersectsObject o d (objs.getD j default) = false := by
  induction objs generalizing i with
  | nil => simp [findHit] at h
  | cons a rest ih =>
    by_cases ha : rayIntersectsObject o d a
    · simp [findHit, ha] at h
      subst h
      simpa using ha
    · simp only [findHit, ha, Bool.false_eq_true, if_false, Option.map_eq_some'] at h
      obtain ⟨k, hk, rfl⟩ := h
      obtain ⟨h1, h2, h3⟩ := ih k hk
      refine ⟨by simpa using h1, by simpa using h2, ?_⟩
      intro j hj
      cases j with
      | zero => simpa using ha
      | succ j' => simpa using h3 j' (by omega)

/-- Claim C1 (counterexample): the ray from `(3/2, 0, 5)` in direction
`(0, 0, -1)` is exactly tangent to the bounding sphere of `objTangent`
(discriminant `= 0`), yet `RayIntersectsObject` returns `false` because the
source tests `discriminant > 0` strictly; so the test is not equivalent to
"discriminant non-negative" as the claim states. -/
theorem rayIntersectsObject_tangent_counterexample_C1 :
    ¬ (rayIntersectsObject ⟨3/2, 0, 5⟩ ⟨0, 0, -1⟩ objTangent = true ↔
        0 ≤ raySphereDiscriminant ⟨3/2, 0, 5⟩ ⟨0, 0, -1⟩ objTangent) := by
  norm_num [rayIntersectsObject, raySphereDiscriminant, V3.dot, objTangent]

/-- Claim C1 (amended): `RayIntersectsObject` returns true if and only if the
discriminant of the ray/sphere quadratic is strictly positive; a tangent ray
(discriminant exactly zero) does not count as an intersection, and a ray
passing through the sphere's center (with nonzero direction and nonzero
scale) still returns true. -/
theorem rayIntersectsObject_strict_discriminant_C1 :
    (∀ (o d : V3) (obj : Object),
      rayIntersectsObject o d obj = true ↔ 0 < raySphereDiscriminant o d obj)
    ∧ (∀ (o d : V3) (obj : Object) (t : ℚ),
        0 < V3.dot d d → 0 < V3.dot obj.scale obj.scale →
        o + t • d = obj.position → rayIntersectsObject o d obj = true) := by
  constructor
  · intro o d obj
    simp [rayIntersectsObject]
  · intro o d obj t hd hs hcenter
    rw [V3.ext_iff_xyz] at hcenter
    obtain ⟨hx, hy, hz⟩ := hcenter
    simp only [V3.add_x, V3.add_y, V3.add_z, V3.smul_x, V3.smul_y, V3.smul_z] at hx hy hz
    simp only [rayIntersectsObject, raySphereDiscriminant, V3.dot, V3.sub_x, V3.sub_y,
      V3.sub_z, decide_eq_true_eq] at *
    have e1 : o.x - obj.position.x = -(t * d.x) := by linarith
    have e2 : o.y - obj.position.y = -(t * d.y) := by linarith
    have e3 : o.z - obj.position.z = -(t * d.z) := by linarith
    rw [e1, e2, e3]
    ring_nf
    nlinarith [mul_pos hd hs]

/-- Witness for the amended claim C1: the ray from `(0,0,5)` toward
`(0,0,-1)` passes through the center of a unit-scale object at the origin
(at parameter `t = 5`) and the test returns true. -/
theorem rayIntersectsObject_through_center_witness_C1 :
    0 < V3.dot ⟨0, 0, -1⟩ ⟨0, 0, -1⟩
    ∧ 0 < V3.dot (objTangent.scale) (objTangent.scale)
    ∧ (⟨0, 0, 5⟩ : V3) + (5 : ℚ) • ⟨0, 0, -1⟩ = objTangent.position
    ∧ rayIntersectsObject ⟨0, 0, 5⟩ ⟨0, 0, -1⟩ objTangent = true :=
  ⟨by norm_num [V3.dot], by norm_num [V3.dot, objTangent],
    by norm_num [V3.ext_iff_xyz, objTangent],
    rayIntersectsObject_strict_discriminant_C1.2 ⟨0, 0, 5⟩ ⟨0, 0, -1⟩ objTangent 5
      (by norm_num [V3.dot]) (by norm_num [V3.dot, objTangent])
      (by norm_num [V3.ext_iff_xyz, objTangent])⟩

/-- Claim C3: while dragging in Translate mode, the frame delta added to the
selected object's position equals
`dot(currentRayPoint - anchorWorldPoint, axisUnitVector) * axisUnitVector *
sensitivityFactor` with `currentRayPoint = rayOrigin + rayDirection`; the
anchor is re-seeded to `currentRayPoint` at the end of the frame, and the
sensitivity factor defaults to 4. -/
theorem translate_drag_update_C3 (s : EditorState) (o d : V3) (q : Quat) (i : Nat)
    (hsel : s.selectedObject = Int.ofNat i) (hlen : i < s.objects.length)
    (hdrag : s.isDragging = true)
    (hax : s.selectedAxis = 0 ∨ s.selectedAxis = 1 ∨ s.selectedAxis = 2)
    (hmode : s.currentMode = TransformationMode.TRANSLATE) :
    dragFrameBody o d q s =
      { s with
        objects := s.objects.set i
          { s.objects.getD i default with
            position := (s.objects.getD i default).position +
              (V3.dot (o + d - s.initialClickPosition) (axisDirection s.selectedAxis) *
                s.movementSensitivity) • axisDirection s.selectedAxis },
        initialClickPosition := o + d }
    ∧ initState.editor.movementSensitivity = 4 := by
  refine ⟨?_, rfl⟩
  have haxnn : (0 : Int) ≤ s.selectedAxis := by rcases hax with h | h | h <;> simp [h]
  have h0 : (0 : Int) ≤ s.selectedObject := by rw [hsel]; exact ofNat_nonneg_self i
  unfold dragFrameBody
  rw [if_pos (show s.isDragging = true ∧ 0 ≤ s.selectedObject ∧ 0 ≤ s.selectedAxis from
    ⟨hdrag, h0, haxnn⟩)]
  simp only [hmode, hsel, getObjD, toNat_ofNat_self]

/-- Witness for claim C3: with anchor at the origin and current ray point
`(2, 0, 0)`, the movement scalar along X is 2 and sensitivity 4 adds
`(8, 0, 0)`: the default cube moves from `(0, 1/2, 0)` to `(8, 1/2, 0)` and
the anchor is re-seeded to `(2, 0, 0)`. -/
theorem translate_drag_witness_C3 :
    ((dragFrameBody ⟨0, 0, 0⟩ ⟨2, 0, 0⟩ ⟨1, 0, 0, 0⟩ sW3).objects.getD 0 default).position
        = ⟨8, 1/2, 0⟩
    ∧ (dragFrameBody ⟨0, 0, 0⟩ ⟨2, 0, 0⟩ ⟨1, 0, 0, 0⟩ sW3).initialClickPosition = ⟨2, 0, 0⟩ := by
  have h := translate_drag_update_C3 sW3 ⟨0, 0, 0⟩ ⟨2, 0, 0⟩ ⟨1, 0, 0, 0⟩ 0 rfl
    (by simp [sW3]) rfl (Or.inl rfl) rfl
  rw [h.1]
  constructor
  · simp [sW3, initialObject, axisDirection, V3.dot, V3.ext_iff_xyz]
    norm_num
  · simp [sW3, V3.ext_iff_xyz]

/-- Claim C4: while dragging in Scale mode, the new scale is the
componentwise maximum of `scale + movementVector` and `(1/10, 1/10, 1/10)`
(minimum clamp only, no maximum), the anchor is re-seeded, and a component
whose movement is zero is unchanged provided it already satisfies the 1/10
minimum. -/
theorem scale_drag_clamp_C4 (s : EditorState) (o d : V3) (q : Quat) (i : Nat)
    (hsel : s.selectedObject = Int.ofNat i) (hlen : i < s.objects.length)
    (hdrag : s.isDragging = true)
    (hax : s.selectedAxis = 0 ∨ s.selectedAxis = 1 ∨ s.selectedAxis = 2)
    (hmode : s.currentMode = TransformationMode.SCALE) :
    dragFrameBody o d q s =
      { s with
        objects := s.objects.set i
          { s.objects.getD i default with
            scale := V3.maxV ((s.objects.getD i default).scale +
              (V3.dot (o + d - s.initialClickPosition) (axisDirection s.selectedAxis) *
                s.movementSensitivity) • axisDirection s.selectedAxis) ⟨1/10, 1/10, 1/10⟩ },
        initialClickPosition := o + d }
    ∧ (∀ a b : V3, b.x = 0 → 1/10 ≤ a.x → (V3.maxV (a + b) ⟨1/10, 1/10, 1/10⟩).x = a.x)
    ∧ (∀ a b : V3, b.y = 0 → 1/10 ≤ a.y → (V3.maxV (a + b) ⟨1/10, 1/10, 1/10⟩).y = a.y)
    ∧ (∀ a b : V3, b.z = 0 → 1/10 ≤ a.z → (V3.maxV (a + b) ⟨1/10, 1/10, 1/10⟩).z = a.z) := by
  refine ⟨?_, ?_, ?_, ?_⟩
  · have haxnn : (0 : Int) ≤ s.selectedAxis := by rcases hax with h | h | h <;> simp [h]
    have h0 : (0 : Int) ≤ s.selectedObject := by rw [hsel]; exact ofNat_nonneg_self i
    unfold dragFrameBody
    rw [if_pos (show s.isDragging = true ∧ 0 ≤ s.selectedObject ∧ 0 ≤ s.selectedAxis from
      ⟨hdrag, h0, haxnn⟩)]
    simp only [hmode, hsel, getObjD, toNat_ofNat_self]
  · intro a b hb ha
    simp only [V3.maxV, V3.add_x, hb, add_zero]
    exact max_eq_left ha
  · intro a b hb ha
    simp only [V3.maxV, V3.add_y, hb, add_zero]
    exact max_eq_left ha
  · intro a b hb ha
    simp only [V3.maxV, V3.add_z, hb, add_zero]
    exact max_eq_left ha

/-- Witness for claim C4: a scale drag whose movement vector is `(-5, 0, 0)`
applied to the default cube of scale `(1, 1, 1)` clamps the X component to
1/10 and leaves Y and Z unchanged. -/
theorem scale_drag_witness_C4 :
    ((dragFrameBody ⟨0, 0, 0⟩ ⟨0, 0, 0⟩ ⟨1, 0, 0, 0⟩ sW4).objects.getD 0 default).scale
        = ⟨1/10, 1, 1⟩
    ∧ (dragFrameBody ⟨0, 0, 0⟩ ⟨0, 0, 0⟩ ⟨1, 0, 0, 0⟩ sW4).initialClickPosition = ⟨0, 0, 0⟩ := by
  have h := scale_drag_clamp_C4 sW4 ⟨0, 0, 0⟩ ⟨0, 0, 0⟩ ⟨1, 0, 0, 0⟩ 0 rfl
    (by simp [sW4]) rfl (Or.inl rfl) rfl
  rw [h.1]
  constructor
  · simp [sW4, initialObject, axisDirection, V3.dot, V3.maxV, V3.ext_iff_xyz]
    norm_num
  · simp [sW4, V3.ext_iff_xyz]

/-- Claim C5: one frame of a Rotate-mode drag rotates the object's position
about the object's own center, which is the identity on position: for every
axis, cursor ray, sensitivity and rotation quaternion, the whole editor
state is unchanged except for the re-seeded anchor. -/
theorem rotate_drag_position_identity_C5 (s : EditorState) (o d : V3) (q : Quat) (i : Nat)
    (hsel : s.selectedObject = Int.ofNat i) (hlen : i < s.objects.length)
    (hdrag : s.isDragging = true) (hax : 0 ≤ s.selectedAxis)
    (hmode : s.currentMode = TransformationMode.ROTATE) :
    dragFrameBody o d q s = { s with initialClickPosition := o + d } := by
  have h0 : (0 : Int) ≤ s.selectedObject := by rw [hsel]; exact ofNat_nonneg_self i
  unfold dragFrameBody
  rw [if_pos (show s.isDragging = true ∧ 0 ≤ s.selectedObject ∧ 0 ≤ s.selectedAxis from
    ⟨hdrag, h0, hax⟩)]
  have hfix : ∀ obj : Object,
      ({ obj with position := quatRotate q (obj.position - obj.position) + obj.position }
        : Object) = obj := by
    intro obj
    have hp : quatRotate q (obj.position - obj.position) + obj.position = obj.position := by
      rw [V3.sub_self_eq_zero, quatRotate_zero, V3.zero_add_eq]
    rw [hp]
  simp only [hmode, hsel, getObjD, toNat_ofNat_self, hfix]
  rw [list_set_getD_self _ _ _ hlen]

/-- Witness for claim C5: a concrete rotate-mode frame with a nontrivial
quaternion leaves the state unchanged except for the anchor. -/
theorem rotate_drag_witness_C5 :
    dragFrameBody ⟨3, 2, 1⟩ ⟨0, 1, 0⟩ ⟨1/2, 1/2, 1/2, 1/2⟩ sW5
      = { sW5 with initialClickPosition := ⟨3, 3, 1⟩ } := by
  have h := rotate_drag_position_identity_C5 sW5 ⟨3, 2, 1⟩ ⟨0, 1, 0⟩ ⟨1/2, 1/2, 1/2, 1/2⟩ 0
    rfl (by simp [sW5]) rfl (by simp [sW5]) rfl
  rw [h]
  norm_num [V3.ext_iff_xyz]

/-- Claim C8: when the UI wants the mouse (`WantCaptureMouse`), a
primary-button press performs no gizmo test and no object test and leaves
the entire editor state — selection, drag state and every object —
unchanged. -/
theorem ui_capture_press_noop_C8 (s : EditorState) (o d : V3) :
    mousePressBody true o d s = s := rfl

/-- Claim C6: object picking iterates the object sequence in index order,
the first index hit by the ray/sphere test becomes the selection and no
earlier index is a hit; when nothing matches — in particular on the empty
sequence — the result is `-1` (no selection), and a returned index is
always in range, so there is no out-of-range access; when nothing was
selected the press handler stores exactly this picking result. -/
theorem object_picking_first_match_C6 (o d : V3) (objs : List Object) (s : EditorState) :
    pickObject o d [] = -1
    ∧ (pickObject o d objs = -1 ∨
        ∃ i : Nat, pickObject o d objs = Int.ofNat i ∧ i < objs.length)
    ∧ (pickObject o d objs = -1 ↔ ∀ obj ∈ objs, rayIntersectsObject o d obj = false)
    ∧ (∀ i : Nat, pickObject o d objs = Int.ofNat i →
        i < objs.length ∧ rayIntersectsObject o d (objs.getD i default) = true
        ∧ ∀ j, j < i → rayIntersectsObject o d (objs.getD j default) = false)
    ∧ (s.selectedObject = -1 →
        (mousePressBody false o d s).selectedObject = pickObject o d s.objects) := by
  refine ⟨rfl, ?_, ?_, ?_, ?_⟩
  · cases hf : findHit o d objs with
    | none => left; simp [pickObject, hf]
    | some k =>
      right
      exact ⟨k, by simp [pickObject, hf], (findHit_some_spec o d objs k hf).1⟩
  · cases hf : findHit o d objs with
    | none =>
      simp only [pickObject, hf]
      simpa using (findHit_none_iff o d objs).mp hf
    | some k =>
      simp only [pickObject, hf]
      constructor
      · intro hcontra
        simp only [ofNat_eq_cast_self] at hcontra
        exact absurd hcontra (by omega)
      · intro hall
        obtain ⟨hk, hhit, -⟩ := findHit_some_spec o d objs k hf
        have hmem : objs.getD k default ∈ objs := by
          rw [List.getD_eq_getElem objs default hk]
          exact List.getElem_mem hk
        rw [hall _ hmem] at hhit
        exact absurd hhit (by simp)
  · intro i hi
    cases hf : findHit o d objs with
    | none =>
      simp only [pickObject, hf, ofNat_eq_cast_self] at hi
      exact absurd hi (by omega)
    | some k =>
      simp only [pickObject, hf, ofNat_eq_cast_self] at hi
      have hk : k = i := by omega
      subst hk
      exact findHit_some_spec o d objs k hf
  · intro h
    simp only [mousePressBody, Bool.false_eq_true, if_false]
    norm_num [h]

/-- Witness for claim C6: with nothing selected, a press stores exactly the
picking result, and picking from the empty sequence yields no selection. -/
theorem object_picking_witness_C6 :
    initState.editor.selectedObject = -1
    ∧ (mousePressBody false ⟨0, 0, 3⟩ ⟨0, 0, -1⟩ initState.editor).selectedObject
        = pickObject ⟨0, 0, 3⟩ ⟨0, 0, -1⟩ initState.editor.objects
    ∧ pickObject ⟨0, 0, 3⟩ ⟨0, 0, -1⟩ [] = -1 :=
  ⟨rfl,
    (object_picking_first_match_C6 ⟨0, 0, 3⟩ ⟨0, 0, -1⟩ initState.editor.objects
      initState.editor).2.2.2.2 rfl,
    (object_picking_first_match_C6 ⟨0, 0, 3⟩ ⟨0, 0, -1⟩ [] initState.editor).1⟩

/-- Claim C2 (counterexample): in rotate mode, with an object selected, a
press whose ray hits the X translation arrow but misses all three rotation
rings (`IsRayNearCircle` is false for every axis, at both the interaction
radius 1 and the rendered radius 3/2) still selects axis X and starts a
drag: the click dispatch is not mode-aware and never consults the ring
test. -/
theorem gizmo_dispatch_counterexample_C2 :
    stC2.currentMode = TransformationMode.ROTATE
    ∧ (mousePressBody false ⟨1/2, 1/20, 5⟩ ⟨0, 0, -1⟩ stC2).selectedAxis = 0
    ∧ (mousePressBody false ⟨1/2, 1/20, 5⟩ ⟨0, 0, -1⟩ stC2).isDragging = true
    ∧ isRayNearCircle ⟨1/2, 1/20, 5⟩ ⟨0, 0, -1⟩ 0 ⟨1, 0, 0⟩ 1 = false
    ∧ isRayNearCircle ⟨1/2, 1/20, 5⟩ ⟨0, 0, -1⟩ 0 ⟨0, 1, 0⟩ 1 = false
    ∧ isRayNearCircle ⟨1/2, 1/20, 5⟩ ⟨0, 0, -1⟩ 0 ⟨0, 0, 1⟩ 1 = false
    ∧ isRayNearCircle ⟨1/2, 1/20, 5⟩ ⟨0, 0, -1⟩ 0 ⟨1, 0, 0⟩ (3/2) = false
    ∧ isRayNearCircle ⟨1/2, 1/20, 5⟩ ⟨0, 0, -1⟩ 0 ⟨0, 1, 0⟩ (3/2) = false
    ∧ isRayNearCircle ⟨1/2, 1/20, 5⟩ ⟨0, 0, -1⟩ 0 ⟨0, 0, 1⟩ (3/2) = false := by
  refine ⟨rfl, ?_, ?_, ?_, ?_, ?_, ?_, ?_, ?_⟩ <;>
    norm_num [mousePressBody, stC2, objOrigin, getObjD, rayHitsSegment, segClosestPoint,
      clampQ, V3.dot, V3.cross, gizmoClickRadius, isRayNearCircle, V3.ext_iff_xyz,
      show |(9/10 : ℚ)| = 9/10 from by norm_num,
      show |(7/5 : ℚ)| = 7/5 from by norm_num]

/-- Claim C2 (amended): on a primary-button click with an object selected
(and no drag in progress), the dispatch tests the three translation/scaling
arrow segments from the object's position to position plus a unit axis, in
the fixed priority order X, then Y, then Z, first match winning with no
further axis tested; this happens in every transformation mode — rotate
included, where the ring test of the never-invoked `HandleGizmoInteraction`
plays no part — so the outcome commutes with changing the mode. -/
theorem gizmo_dispatch_arrow_order_C2 (s : EditorState) (o d : V3)
    (hsel : 0 ≤ s.selectedObject) (hidle : s.isDragging = false) :
    (rayHitsSegment o d (getObjD s.objects s.selectedObject).position
        ((getObjD s.objects s.selectedObject).position + ⟨1, 0, 0⟩) gizmoClickRadius = true →
      (mousePressBody false o d s).selectedAxis = 0
      ∧ (mousePressBody false o d s).isDragging = true)
    ∧ (rayHitsSegment o d (getObjD s.objects s.selectedObject).position
        ((getObjD s.objects s.selectedObject).position + ⟨1, 0, 0⟩) gizmoClickRadius = false →
      rayHitsSegment o d (getObjD s.objects s.selectedObject).position
        ((getObjD s.objects s.selectedObject).position + ⟨0, 1, 0⟩) gizmoClickRadius = true →
      (mousePressBody false o d s).selectedAxis = 1
      ∧ (mousePressBody false o d s).isDragging = true)
    ∧ (rayHitsSegment o d (getObjD s.objects s.selectedObject).position
        ((getObjD s.objects s.selectedObject).position + ⟨1, 0, 0⟩) gizmoClickRadius = false →
      rayHitsSegment o d (getObjD s.objects s.selectedObject).position
        ((getObjD s.objects s.selectedObject).position + ⟨0, 1, 0⟩) gizmoClickRadius = false →
      rayHitsSegment o d (getObjD s.objects s.selectedObject).position
        ((getObjD s.objects s.selectedObject).position + ⟨0, 0, 1⟩) gizmoClickRadius = true →
      (mousePressBody false o d s).selectedAxis = 2
      ∧ (mousePressBody false o d s).isDragging = true)
    ∧ (rayHitsSegment o d (getObjD s.objects s.selectedObject).position
        ((getObjD s.objects s.selectedObject).position + ⟨1, 0, 0⟩) gizmoClickRadius = false →
      rayHitsSegment o d (getObjD s.objects s.selectedObject).position
        ((getObjD s.objects s.selectedObject).position + ⟨0, 1, 0⟩) gizmoClickRadius = false →
      rayHitsSegment o d (getObjD s.objects s.selectedObject).position
        ((getObjD s.objects s.selectedObject).position + ⟨0, 0, 1⟩) gizmoClickRadius = false →
      (mousePressBody false o d s).selectedAxis = -1
      ∧ (mousePressBody false o d s).isDragging = false)
    ∧ (∀ m : TransformationMode,
        mousePressBody false o d { s with currentMode := m }
          = { mousePressBody false o d s with currentMode := m }) := by
  have hne : ¬ s.selectedObject = -1 := by omega
  refine ⟨?_, ?_, ?_, ?_, ?_⟩
  · intro hx
    simp [mousePressBody, hsel, hx, hne]
  · intro hx hy
    simp [mousePressBody, hsel, hx, hy, hne]
  · intro hx hy hz
    simp [mousePressBody, hsel, hx, hy, hz, hne]
  · intro hx hy hz
    simp [mousePressBody, hsel, hx, hy, hz, hne, hidle]
  · intro m
    by_cases hx : rayHitsSegment o d (getObjD s.objects s.selectedObject).position
        ((getObjD s.objects s.selectedObject).position + ⟨1, 0, 0⟩) gizmoClickRadius
    · simp [mousePressBody, hsel, hx, hne]
    · by_cases hy : rayHitsSegment o d (getObjD s.objects s.selectedObject).position
          ((getObjD s.objects s.selectedObject).position + ⟨0, 1, 0⟩) gizmoClickRadius
      · simp [mousePressBody, hsel, hx, hy, hne]
      · by_cases hz : rayHitsSegment o d (getObjD s.objects s.selectedObject).position
            ((getObjD s.objects s.selectedObject).position + ⟨0, 0, 1⟩) gizmoClickRadius
        · simp [mousePressBody, hsel, hx, hy, hz, hne]
        · by_cases hdrag : s.isDragging
          · simp [mousePressBody, hsel, hx, hy, hz, hne, hdrag]
          · simp [mousePressBody, hsel, hx, hy, hz, hne, hdrag]

/-- Witness for the amended claim C2: the press of the rotate-mode
counterexample hits the X arrow and the dispatch selects axis X and starts
dragging. -/
theorem gizmo_dispatch_arrow_witness_C2 :
    (0 : Int) ≤ stC2.selectedObject
    ∧ stC2.isDragging = false
    ∧ rayHitsSegment ⟨1/2, 1/20, 5⟩ ⟨0, 0, -1⟩
        (getObjD stC2.objects stC2.selectedObject).position
        ((getObjD stC2.objects stC2.selectedObject).position + ⟨1, 0, 0⟩)
        gizmoClickRadius = true
    ∧ (mousePressBody false ⟨1/2, 1/20, 5⟩ ⟨0, 0, -1⟩ stC2).selectedAxis = 0
    ∧ (mousePressBody false ⟨1/2, 1/20, 5⟩ ⟨0, 0, -1⟩ stC2).isDragging = true := by
  have hhit : rayHitsSegment ⟨1/2, 1/20, 5⟩ ⟨0, 0, -1⟩
      (getObjD stC2.objects stC2.selectedObject).position
      ((getObjD stC2.objects stC2.selectedObject).position + ⟨1, 0, 0⟩)
      gizmoClickRadius = true := by
    norm_num [stC2, objOrigin, getObjD, rayHitsSegment, segClosestPoint, clampQ,
      V3.dot, V3.cross, gizmoClickRadius, V3.ext_iff_xyz]
  exact ⟨by norm_num [stC2], rfl, hhit,
    (gizmo_dispatch_arrow_order_C2 stC2 ⟨1/2, 1/20, 5⟩ ⟨0, 0, -1⟩ (by norm_num [stC2])
      rfl).1 hhit⟩

/-- Reading back a freshly written index of a list yields the new value. -/
theorem list_getD_set_self {α : Type} (l : List α) (i : Nat) (a d₀ : α)
    (h : i < l.length) : (l.set i a).getD i d₀ = a := by
  induction l generalizing i with
  | nil => simp at h
  | cons b rest ih =>
    cases i with
    | zero => simp
    | succ i' => simpa [List.getD] using ih i' (by simpa using h)

/-- Presses on two states that differ only in their object lists, with the
same selection and the same position for the selected object, produce the
same axis-selection outcome: the arrow tests read only the selected
object's position. -/
theorem mousePressBody_axis_agrees (o d : V3) (objs1 objs2 : List Object) (j ax : Int)
    (dragging : Bool) (anchor : V3) (mode : TransformationMode) (sens : ℚ)
    (hne : ¬ j = -1)
    (hobj : (getObjD objs1 j).position = (getObjD objs2 j).position) :
    (mousePressBody false o d ⟨objs1, j, ax, dragging, anchor, mode, sens⟩).selectedAxis
      = (mousePressBody false o d ⟨objs2, j, ax, dragging, anchor, mode, sens⟩).selectedAxis
    ∧ (mousePressBody false o d ⟨objs1, j, ax, dragging, anchor, mode, sens⟩).isDragging
      = (mousePressBody false o d ⟨objs2, j, ax, dragging, anchor, mode, sens⟩).isDragging := by
  by_cases h0 : (0 : Int) ≤ j
  all_goals by_cases hx : (rayHitsSegment o d (getObjD objs2 j).position
      ((getObjD objs2 j).position + ⟨1, 0, 0⟩) gizmoClickRadius)
  all_goals by_cases hy : (rayHitsSegment o d (getObjD objs2 j).position
      ((getObjD objs2 j).position + ⟨0, 1, 0⟩) gizmoClickRadius)
  all_goals by_cases hz : (rayHitsSegment o d (getObjD objs2 j).position
      ((getObjD objs2 j).position + ⟨0, 0, 1⟩) gizmoClickRadius)
  all_goals by_cases hb : (dragging)
  all_goals simp [mousePressBody, hobj, h0, hx, hy, hz, hb, hne]

/-- Claim C10: the arrow hit test of a press reads only the selected
object's position, never its scale, so presses on two scenes that differ
only in the selected object's scale produce the same axis-selection outcome
(selected axis and drag flag) in every mode — even though the scale-gizmo
handle markers are placed scale-dependently at
`position + scale_component * axis_unit`. -/
theorem arrow_hit_scale_independent_C10 (s : EditorState) (newScale : V3) (o d : V3)
    (i : Nat) (hsel : s.selectedObject = Int.ofNat i) (hlen : i < s.objects.length) :
    ((mousePressBody false o d
        { s with
            objects := s.objects.set i
              ({ s.objects.getD i default with scale := newScale }) }).selectedAxis
      = (mousePressBody false o d s).selectedAxis
    ∧ (mousePressBody false o d
        { s with
            objects := s.objects.set i
              ({ s.objects.getD i default with scale := newScale }) }).isDragging
      = (mousePressBody false o d s).isDragging)
    ∧ ∀ obj : Object, scaleHandlePositions obj
        = (obj.position + obj.scale.x • ⟨1, 0, 0⟩,
           obj.position + obj.scale.y • ⟨0, 1, 0⟩,
           obj.position + obj.scale.z • ⟨0, 0, 1⟩) := by
  have hnn : (0 : Int) ≤ s.selectedObject := by rw [hsel]; exact ofNat_nonneg_self i
  have hne : ¬ s.selectedObject = -1 := by
    rw [hsel, ofNat_eq_cast_self]; omega
  have hpos : (getObjD (s.objects.set i ({ s.objects.getD i default with scale := newScale }))
      s.selectedObject).position = (getObjD s.objects s.selectedObject).position := by
    simp only [getObjD, hsel, toNat_ofNat_self]
    rw [list_getD_set_self s.objects i _ default hlen]
  constructor
  · exact mousePressBody_axis_agrees o d
      (s.objects.set i ({ s.objects.getD i default with scale := newScale })) s.objects
      s.selectedObject s.selectedAxis s.isDragging s.initialClickPosition s.currentMode
      s.movementSensitivity hne hpos
  · intro obj
    simp [scaleHandlePositions, Prod.ext_iff, V3.ext_iff_xyz]

/-- Witness for claim C10: replacing the selected object's scale by
`(7, 7, 7)` does not change the axis selected by the counterexample press. -/
theorem arrow_hit_scale_witness_C10 :
    ((mousePressBody false ⟨1/2, 1/20, 5⟩ ⟨0, 0, -1⟩
        { stC2 with
            objects := stC2.objects.set 0
              ({ stC2.objects.getD 0 default with scale := ⟨7, 7, 7⟩ }) }).selectedAxis
      = (mousePressBody false ⟨1/2, 1/20, 5⟩ ⟨0, 0, -1⟩ stC2).selectedAxis
    ∧ (mousePressBody false ⟨1/2, 1/20, 5⟩ ⟨0, 0, -1⟩
        { stC2 with
            objects := stC2.objects.set 0
              ({ stC2.objects.getD 0 default with scale := ⟨7, 7, 7⟩ }) }).isDragging
      = (mousePressBody false ⟨1/2, 1/20, 5⟩ ⟨0, 0, -1⟩ stC2).isDragging)
    ∧ ∀ obj : Object, scaleHandlePositions obj
        = (obj.position + obj.scale.x • ⟨1, 0, 0⟩,
           obj.position + obj.scale.y • ⟨0, 1, 0⟩,
           obj.position + obj.scale.z • ⟨0, 0, 1⟩) :=
  arrow_hit_scale_independent_C10 stC2 ⟨7, 7, 7⟩ ⟨1/2, 1/20, 5⟩ ⟨0, 0, -1⟩ 0
    rfl (by norm_num [stC2])

/-- Claim C7 (code evidence): called with a zero-length ray direction,
`DistanceFromRayToLineSegment` always reaches the division
`length(perp) / length(direction) = 0/0` (NaN, modelled as `none`), and
`IsRayNearCircle` always divides by `dot(direction, normal) = 0` when
computing its plane parameter (also `none`); only `RayIntersectsObject` is
division-free, degrading to a `false` result without NaN. -/
theorem zero_direction_division_C7 :
    (∀ o s e : V3, distanceSqFromRayToLineSegment o 0 s e = none)
    ∧ (∀ o c n : V3, isRayNearCircleT o 0 c n = none)
    ∧ (∀ (o : V3) (obj : Object), rayIntersectsObject o 0 obj = false) := by
  refine ⟨?_, ?_, ?_⟩
  · intro o s e
    by_cases h : V3.dot (e - s) (e - s) = 0 <;>
      simp [distanceSqFromRayToLineSegment, h, V3.dot]
  · intro o c n
    simp [isRayNearCircleT, V3.dot]
  · intro o obj
    simp [rayIntersectsObject, raySphereDiscriminant, V3.dot]

/-- A non-negative picking result is always in range. -/
theorem pickObject_range (o d : V3) (objs : List Object)
    (h : 0 ≤ pickObject o d objs) : (pickObject o d objs).toNat < objs.length := by
  cases hf : findHit o d objs with
  | none =>
    simp only [pickObject, hf] at h
    exact absurd h (by omega)
  | some k =>
    simp only [pickObject, hf] at h ⊢
    simpa using (findHit_some_spec o d objs k hf).1

/-- What a press can do to the state when it starts from a non-dragging
state: it never modifies the object list; if it leaves the drag flag set it
has chosen axis 0, 1 or 2 and kept the non-negative selection unchanged;
and the stored selection is either the old one or the picking result. -/
theorem mousePressBody_spec (ui : Bool) (o d : V3) (s : EditorState)
    (hidle : s.isDragging = false) :
    (mousePressBody ui o d s).objects = s.objects
    ∧ ((mousePressBody ui o d s).isDragging = true →
        ((mousePressBody ui o d s).selectedAxis = 0
          ∨ (mousePressBody ui o d s).selectedAxis = 1
          ∨ (mousePressBody ui o d s).selectedAxis = 2)
        ∧ 0 ≤ (mousePressBody ui o d s).selectedObject
        ∧ (mousePressBody ui o d s).selectedObject = s.selectedObject)
    ∧ ((mousePressBody ui o d s).selectedObject = s.selectedObject
        ∨ (mousePressBody ui o d s).selectedObject = pickObject o d s.objects) := by
  cases ui with
  | true => simp [mousePressBody, hidle]
  | false =>
    by_cases h0 : (0 : Int) ≤ s.selectedObject
    · have hne : ¬ s.selectedObject = -1 := by omega
      by_cases hx : (rayHitsSegment o d (getObjD s.objects s.selectedObject).position
          ((getObjD s.objects s.selectedObject).position + ⟨1, 0, 0⟩) gizmoClickRadius)
      all_goals by_cases hy : (rayHitsSegment o d (getObjD s.objects s.selectedObject).position
          ((getObjD s.objects s.selectedObject).position + ⟨0, 1, 0⟩) gizmoClickRadius)
      all_goals by_cases hz : (rayHitsSegment o d (getObjD s.objects s.selectedObject).position
          ((getObjD s.objects s.selectedObject).position + ⟨0, 0, 1⟩) gizmoClickRadius)
      all_goals simp [mousePressBody, h0, hx, hy, hz, hidle, hne]
    · simp [mousePressBody, h0, hidle]

/-- One frame of the drag block never changes the selection, the axis, the
drag flag or the length of the object list. -/
theorem dragFrameBody_preserves (o d : V3) (q : Quat) (s : EditorState) :
    (dragFrameBody o d q s).selectedObject = s.selectedObject
    ∧ (dragFrameBody o d q s).selectedAxis = s.selectedAxis
    ∧ (dragFrameBody o d q s).isDragging = s.isDragging
    ∧ (dragFrameBody o d q s).objects.length = s.objects.length := by
  by_cases hg : (s.isDragging = true ∧ 0 ≤ s.selectedObject ∧ 0 ≤ s.selectedAxis)
  · cases hmode : s.currentMode <;> simp [dragFrameBody, hg, hmode, List.length_set]
  · simp [dragFrameBody, hg]

/-- Each input operation preserves the drag-state invariant. -/
theorem dragInv_step (st : SysState) (e : Event) (h : DragInv st) :
    DragInv (stepEvent st e) := by
  obtain ⟨h1, h2, h3⟩ := h
  cases e with
  | press ui o d =>
    by_cases hb : st.buttonDown = true
    · have hstep : stepEvent st (Event.press ui o d) = st := by simp [stepEvent, hb]
      rw [hstep]
      exact ⟨h1, h2, h3⟩
    · have hb' : st.buttonDown = false := by simpa using hb
      have hidle : st.editor.isDragging = false := h3 hb'
      obtain ⟨hobjs, hdragimp, hselv⟩ := mousePressBody_spec ui o d st.editor hidle
      have hstep : stepEvent st (Event.press ui o d)
          = ⟨mousePressBody ui o d st.editor, true⟩ := by simp [stepEvent, hb']
      rw [hstep]
      refine ⟨?_, ?_, ?_⟩
      · intro hd
        obtain ⟨hax, hnn, -⟩ := hdragimp hd
        exact ⟨hax, hnn⟩
      · intro hnn
        show (mousePressBody ui o d st.editor).selectedObject.toNat
          < (mousePressBody ui o d st.editor).objects.length
        rw [hobjs]
        rcases hselv with hsame | hpick
        · rw [hsame] at hnn ⊢
          exact h2 hnn
        · rw [hpick] at hnn ⊢
          exact pickObject_range o d st.editor.objects hnn
      · intro hcontra
        exact absurd hcontra (by simp)
  | release =>
    refine ⟨?_, ?_, ?_⟩
    · intro hd
      exact absurd hd (by simp [stepEvent, mouseRelease])
    · intro hnn
      exact h2 hnn
    · intro _
      rfl
  | uiSelect i =>
    by_cases hi : i < st.editor.objects.length
    · have hstep : stepEvent st (Event.uiSelect i)
          = ⟨{ st.editor with selectedObject := Int.ofNat i }, st.buttonDown⟩ := by
        simp [stepEvent, uiSelectObject, hi]
      rw [hstep]
      refine ⟨?_, ?_, ?_⟩
      · intro hd
        exact ⟨(h1 hd).1, ofNat_nonneg_self i⟩
      · intro _
        simpa using hi
      · intro hbf
        exact h3 hbf
    · have hstep : stepEvent st (Event.uiSelect i) = st := by
        simp [stepEvent, uiSelectObject, hi]
      rw [hstep]
      exact ⟨h1, h2, h3⟩
  | frame o d q =>
    obtain ⟨hsel, hax, hdr, hlen⟩ := dragFrameBody_preserves o d q st.editor
    refine ⟨?_, ?_, ?_⟩
    · intro hd
      rw [show (stepEvent st (Event.frame o d q)).editor = dragFrameBody o d q st.editor
        from rfl, hdr] at hd
      show ((dragFrameBody o d q st.editor).selectedAxis = 0
          ∨ (dragFrameBody o d q st.editor).selectedAxis = 1
          ∨ (dragFrameBody o d q st.editor).selectedAxis = 2)
        ∧ 0 ≤ (dragFrameBody o d q st.editor).selectedObject
      rw [hax, hsel]
      exact h1 hd
    · intro hnn
      rw [show (stepEvent st (Event.frame o d q)).editor = dragFrameBody o d q st.editor
        from rfl, hsel] at hnn
      show (dragFrameBody o d q st.editor).selectedObject.toNat
        < (dragFrameBody o d q st.editor).objects.length
      rw [hsel, hlen]
      exact h2 hnn
    · intro hbf
      show (dragFrameBody o d q st.editor).isDragging = false
      rw [hdr]
      exact h3 hbf
  | addObject obj =>
    refine ⟨?_, ?_, ?_⟩
    · intro hd
      exact h1 hd
    · intro hnn
      have hlt := h2 hnn
      show st.editor.selectedObject.toNat < (st.editor.objects ++ [obj]).length
      rw [List.length_append]
      omega
    · intro hbf
      exact h3 hbf
  | setMode m =>
    exact ⟨h1, h2, h3⟩

/-- The invariant holds in the initial state. -/
theorem dragInv_init : DragInv initState :=
  ⟨fun h => absurd h (by decide), fun h => absurd h (by decide), fun _ => rfl⟩

/-- The invariant holds after any sequence of input operations. -/
theorem dragInv_run (es : List Event) : DragInv (runEvents es) := by
  have haux : ∀ (l : List Event) (st : SysState),
      DragInv st → DragInv (l.foldl stepEvent st) := by
    intro l
    induction l with
    | nil => intro st h; simpa using h
    | cons e rest ih => intro st h; exact ih _ (dragInv_step st e h)
  exact haux es initState dragInv_init

/-- Claim C9: in every state reachable from the initial state via the input
operations (press, release, UI list selection, per-frame drag update, plus
the add-object and mode buttons), whenever `isDragging` is true the drag
axis is present (0, 1 or 2) and a selected object is present
(`selectedObject` is a valid index into the object sequence). -/
theorem drag_invariant_C9 (es : List Event)
    (hd : (runEvents es).editor.isDragging = true) :
    ((runEvents es).editor.selectedAxis = 0 ∨ (runEvents es).editor.selectedAxis = 1
      ∨ (runEvents es).editor.selectedAxis = 2)
    ∧ 0 ≤ (runEvents es).editor.selectedObject
    ∧ (runEvents es).editor.selectedObject.toNat
        < (runEvents es).editor.objects.length := by
  obtain ⟨h1, h2, -⟩ := dragInv_run es
  obtain ⟨hax, hnn⟩ := h1 hd
  exact ⟨hax, hnn, h2 hnn⟩

/-- Witness for claim C9: after selecting the default cube in the Object
List and pressing on its X arrow, the system is dragging, and the claim
yields axis X with a valid selection. -/
theorem drag_invariant_witness_C9 :
    (runEvents trC9).editor.isDragging = true
    ∧ (((runEvents trC9).editor.selectedAxis = 0 ∨ (runEvents trC9).editor.selectedAxis = 1
        ∨ (runEvents trC9).editor.selectedAxis = 2)
      ∧ 0 ≤ (runEvents trC9).editor.selectedObject
      ∧ (runEvents trC9).editor.selectedObject.toNat
          < (runEvents trC9).editor.objects.length) := by
  have hd : (runEvents trC9).editor.isDragging = true := by
    norm_num [runEvents, trC9, initState, stepEvent, uiSelectObject, mousePressBody,
      getObjD, initialObject, rayHitsSegment, segClosestPoint, clampQ, V3.dot, V3.cross,
      gizmoClickRadius, V3.ext_iff_xyz]
  exact ⟨hd, drag_invariant_C9 trC9 hd⟩
